import Mathlib

/-!
Shallow embedding of the push-notification delivery layer of the
`teman-sebat-api` repository (`src/lib/apns.ts`, node-apn variant, and the
friend-token resolution helper of `src/routes/smoking.ts`).

External effects are modelled explicitly:
* the gateway (`provider.send`) is an oracle `GB`-valued function of the
  attempt index and the port in use;
* credential generation (`generateApnsAuthToken`, which calls into the jose
  library) is an oracle `ApnsConfig → Except String String` (error = thrown
  message);
* every network attempt is recorded in a trace (the list of ports used),
  so "no network call" and "exactly k attempts" are statable.
-/

/-- JavaScript truthiness of a string: empty string is falsy. -/
def jsTruthy (s : String) : Bool := s ≠ ""

/-- JavaScript truthiness of a possibly-absent string field. -/
def jsTruthyOpt : Option String → Bool
  | none => false
  | some s => s ≠ ""

/-- JavaScript `x || d` for a string `x` (falsy empty string replaced by `d`). -/
def jsOrS (s : String) (d : String) : String := if s = "" then d else s

/-- JavaScript `x || d` where `x` may be absent (`undefined`). -/
def jsOrO : Option String → String → String
  | none, d => d
  | some s, d => if s = "" then d else s

/-- Does the character list start with the given pattern? -/
def listStartsWith : List Char → List Char → Bool
  | _, [] => true
  | [], _ :: _ => false
  | a :: as, b :: bs => a = b && listStartsWith as bs

/-- Does the character list contain the pattern as a contiguous run? -/
def listIncludes (pat : List Char) : List Char → Bool
  | [] => listStartsWith [] pat
  | h :: t => listStartsWith (h :: t) pat || listIncludes pat t

/-- JavaScript `String.prototype.includes`. -/
def strIncludes (s pat : String) : Bool := listIncludes pat.toList s.toList

/-- Leading decimal digits of a character list as a number. -/
def parseDigits (l : List Char) : Option Nat :=
  let d := l.takeWhile Char.isDigit
  if d.isEmpty then none
  else some (d.foldl (fun acc c => acc * 10 + (c.toNat - 48)) 0)

/-- JavaScript `parseInt` restricted to plain decimal strings (the only ones
this codebase passes: the `"5" | "10"` priority values); `none` models NaN. -/
def jsParseInt (s : String) : Option Int :=
  match s.toList with
  | '-' :: rest => (parseDigits rest).map (fun n => -(n : Int))
  | l => (parseDigits l).map (fun n => (n : Int))

/-- Value of one base64 alphabet character; invalid characters are skipped by
`Buffer.from(_, 'base64')`, which `bufferFromBase64Utf8` mirrors. -/
def b64Val (c : Char) : Option Nat :=
  if 'A' ≤ c ∧ c ≤ 'Z' then some (c.toNat - 65)
  else if 'a' ≤ c ∧ c ≤ 'z' then some (c.toNat - 97 + 26)
  else if '0' ≤ c ∧ c ≤ '9' then some (c.toNat - 48 + 52)
  else if c = '+' then some 62
  else if c = '/' then some 63
  else none

/-- Regroup a list of 6-bit values into bytes (base64 body decoding). -/
def b64Groups : List Nat → List Nat
  | a :: b :: c :: d :: rest =>
    (a * 4 + b / 16) :: ((b % 16) * 16 + c / 4) :: ((c % 4) * 64 + d) :: b64Groups rest
  | [a, b] => [a * 4 + b / 16]
  | [a, b, c] => [a * 4 + b / 16, (b % 16) * 16 + c / 4]
  | _ => []

/-- `Buffer.from(s, 'base64').toString('utf-8')` from `sendPushNotifications`.
Bytes are mapped to characters one-for-one; this agrees with the UTF-8
decoding on the ASCII range, which covers PEM key material. -/
def bufferFromBase64Utf8 (s : String) : String :=
  String.mk ((b64Groups (s.toList.filterMap b64Val)).map (fun n => Char.ofNat n))

/-! ## Payload model (`ApnsPayload` of `src/lib/apns.ts`) -/

/-- `aps.alert`: either a plain string or a `{title, subtitle, body}` object. -/
inductive AlertField where
  | str (s : String)
  | obj (title subtitle body : Option String)
deriving DecidableEq, Repr

/-- The `aps` dictionary of an APNS payload. -/
structure Aps where
  alert : Option AlertField := none
  sound : Option String := none
  badge : Option Int := none
  contentAvailable : Option Int := none
  mutableContent : Option Int := none
deriving DecidableEq, Repr

/-- An APNS payload: the `aps` dictionary plus custom top-level data
(custom values modelled as strings, which is all this codebase sends
besides numeric ids — the size accounting treats them as JSON strings). -/
structure ApnsPayload where
  aps : Aps
  custom : List (String × String) := []
deriving DecidableEq, Repr

/-- Minimal JSON string escaping (quote, backslash, newline), matching
`JSON.stringify` on the characters this codebase produces. -/
def jsonEscapeChar (c : Char) : List Char :=
  if c = '"' then ['\\', '"']
  else if c = '\\' then ['\\', '\\']
  else if c = '\n' then ['\\', 'n']
  else [c]

/-- Render a JSON string literal. -/
def jsonStr (s : String) : String :=
  String.mk ('"' :: s.toList.flatMap jsonEscapeChar ++ ['"'])

/-- Render a JSON object from already-rendered key/value pairs. -/
def renderObj (ps : List (String × String)) : String :=
  "\x7b" ++ String.intercalate "," (ps.map (fun p => jsonStr p.1 ++ ":" ++ p.2)) ++ "\x7d"

/-- Render the `aps.alert` field. -/
def renderAlert : AlertField → String
  | .str s => jsonStr s
  | .obj title subtitle body =>
    renderObj ((title.map (fun t => ("title", jsonStr t))).toList ++
      (subtitle.map (fun t => ("subtitle", jsonStr t))).toList ++
      (body.map (fun t => ("body", jsonStr t))).toList)

/-- Render the `aps` dictionary. -/
def renderAps (a : Aps) : String :=
  renderObj ((a.alert.map (fun v => ("alert", renderAlert v))).toList ++
    (a.sound.map (fun s => ("sound", jsonStr s))).toList ++
    (a.badge.map (fun n => ("badge", toString n))).toList ++
    (a.contentAvailable.map (fun n => ("content-available", toString n))).toList ++
    (a.mutableContent.map (fun n => ("mutable-content", toString n))).toList)

/-- `JSON.stringify(payload)` as built in `sendApnsNotification`. -/
def payloadString (p : ApnsPayload) : String :=
  renderObj (("aps", renderAps p.aps) :: p.custom.map (fun kv => (kv.1, jsonStr kv.2)))

/-- `new TextEncoder().encode(payloadString).length`: UTF-8 byte length. -/
def payloadByteSize (p : ApnsPayload) : Nat := (payloadString p).utf8ByteSize

/-! ## Configuration and options -/

/-- `ApnsConfig` of `src/lib/apns.ts`. -/
structure ApnsConfig where
  keyId : String
  teamId : String
  privateKey : String
  topic : String
  environment : String
deriving DecidableEq, Repr

/-- `ApnsOptions` of `src/lib/apns.ts`. -/
structure ApnsOptions where
  apnsId : Option String := none
  priority : Option String := none
  expiration : Option Int := none
  collapseId : Option String := none
  pushType : Option String := none
deriving DecidableEq, Repr

/-- `RetryConfig` of `src/lib/apns.ts`. -/
structure RetryConfig where
  maxRetries : Nat
  retryDelayMs : Nat
  tryPort2197OnFailure : Bool
deriving DecidableEq, Repr

/-- `defaultRetryConfig`: port 443, then port 2197, then give up; 1s delay. -/
def defaultRetryConfig : RetryConfig :=
  { maxRetries := 2, retryDelayMs := 1000, tryPort2197OnFailure := true }

/-- `determinePushType`: explicit type wins (string truthiness), else
`background` when `aps."content-available" === 1`, else `alert`. -/
def determinePushType (payload : ApnsPayload) (explicitType : Option String) : String :=
  if jsTruthyOpt explicitType then explicitType.getD ""
  else if payload.aps.contentAvailable = some 1 then "background"
  else "alert"

/-- Truthiness of the `aps.alert` field (objects truthy, strings by emptiness). -/
def apsAlertTruthy : Option AlertField → Bool
  | none => false
  | some (.str s) => s ≠ ""
  | some (.obj _ _ _) => true

/-- `determinePriority`: explicit priority parsed by `parseInt` wins, else 5
for background, 10/5 for alert depending on `aps.alert`, else 10.
`none` models a NaN result of `parseInt`. -/
def determinePriority (pushType : String) (payload : ApnsPayload)
    (explicitPriority : Option String) : Option Int :=
  if jsTruthyOpt explicitPriority then jsParseInt (explicitPriority.getD "")
  else match pushType with
    | "background" => some 5
    | "alert" => if apsAlertTruthy payload.aps.alert then some 10 else some 5
    | _ => some 10

/-! ## The retry loop of `sendApnsNotification` -/

/-- A JavaScript error value as observed by the retry loop's catch block. -/
structure JsError where
  message : String
  apnsReason : Option String := none
  code : Option String := none
deriving DecidableEq, Repr

/-- Gateway behaviour of one `provider.send` call (the try-block oracle):
`sent` = `result.sent` non-empty; `failedWith` = `result.failed` non-empty,
carrying the raw optional `response.reason` and `status`; `raise` = the
attempt threw (network errors, provider construction failures); `neither` =
both `result.sent` and `result.failed` empty (the try block falls through). -/
inductive GB where
  | sent
  | failedWith (status : Option String) (reason : Option String)
  | raise (msg : String) (code : Option String)
  | neither
deriving DecidableEq, Repr

/-- Error built for a non-empty `result.failed`: reason and status defaulted
to `"Unknown"` by `||`, message `APNS Error <status>: <reason>`, with
`apnsReason` attached. -/
def mkRejectError (status reason : Option String) : JsError :=
  let r := jsOrO reason "Unknown"
  let st := jsOrO status "Unknown"
  { message := "APNS Error " ++ st ++ ": " ++ r, apnsReason := some r, code := none }

/-- The network-error classification of the catch block. -/
def isNetworkError (e : JsError) : Bool :=
  strIncludes e.message "ECONNREFUSED" || strIncludes e.message "ENOTFOUND" ||
  strIncludes e.message "ETIMEDOUT" || strIncludes e.message "network" ||
  strIncludes e.message "connection" || e.code = some "ECONNREFUSED"

/-- Message of the wrapped retries-exhausted error. -/
def wrapNetMsg (lastError : Option JsError) : String :=
  "APNS Network Error (all retries failed): " ++
    jsOrO (lastError.map (fun e => e.message)) "Unknown error"

/-- Outcome of one `sendApnsNotification` call: resolve with the success
response, or reject with one of the three error shapes the function throws
(pre-loop validation error, protocol rejection carrying `apnsReason`, or the
wrapped retries-exhausted network error). -/
inductive SendOutcome where
  | success
  | validationError (msg : String)
  | apnsRejected (msg : String) (reason : String)
  | netExhausted (msg : String) (retriesAttempted : Nat)
deriving DecidableEq, Repr

/-- The `apns-collapse-id` length check performed inside the try block. -/
def collapseTooLong (options : ApnsOptions) : Bool :=
  match options.collapseId with
  | some c => c.length > 64
  | none => false

/-- The catch block of the retry loop: a protocol error (`apnsReason` truthy)
is rethrown at once; a transient network error with fallback enabled and
retries left toggles the port; otherwise retry on the same port, or give up
wrapping the last error once `attempt >= maxRetries`. The two retry
continuations re-enter the loop. -/
def handleError (cfg : RetryConfig) (attempt : Nat) (calls : List Bool) (e : JsError)
    (retryToggled : JsError → SendOutcome × List Bool)
    (retrySame : JsError → SendOutcome × List Bool) : SendOutcome × List Bool :=
  if jsTruthyOpt e.apnsReason then
    (.apnsRejected e.message (jsOrO e.apnsReason ""), calls)
  else if cfg.tryPort2197OnFailure && isNetworkError e && decide (attempt < cfg.maxRetries) then
    retryToggled e
  else if cfg.maxRetries ≤ attempt then
    (.netExhausted (wrapNetMsg (some e)) (cfg.maxRetries + 1), calls)
  else
    retrySame e

/-- The `for (attempt = 0; attempt <= maxRetries; ...)` retry loop.
`fuel` counts the remaining loop iterations (entered with `maxRetries + 1`,
so `fuel = maxRetries + 1 - attempt` throughout); `calls` accumulates the
port of every network attempt actually made. The oversized-collapse-id throw
happens before `provider.send`, so it records no network call. Running out
of fuel is the normal loop exit, which wraps the last error. -/
def sendLoop (cfg : RetryConfig) (options : ApnsOptions) (gw : Nat → Bool → GB) :
    Nat → Nat → Bool → Option JsError → List Bool → SendOutcome × List Bool
  | 0, _, _, lastError, calls =>
    (.netExhausted (wrapNetMsg lastError) (cfg.maxRetries + 1), calls)
  | fuel + 1, attempt, usePort2197, lastError, calls =>
    if collapseTooLong options then
      handleError cfg attempt calls
        { message := "apns-collapse-id must not exceed 64 bytes" }
        (fun e => sendLoop cfg options gw fuel (attempt + 1) (!usePort2197) (some e) calls)
        (fun e => sendLoop cfg options gw fuel (attempt + 1) usePort2197 (some e) calls)
    else
      match gw attempt usePort2197 with
      | .sent => (.success, calls ++ [usePort2197])
      | .neither =>
        sendLoop cfg options gw fuel (attempt + 1) usePort2197 lastError (calls ++ [usePort2197])
      | .failedWith st rr =>
        handleError cfg attempt (calls ++ [usePort2197]) (mkRejectError st rr)
          (fun e => sendLoop cfg options gw fuel (attempt + 1) (!usePort2197) (some e)
            (calls ++ [usePort2197]))
          (fun e => sendLoop cfg options gw fuel (attempt + 1) usePort2197 (some e)
            (calls ++ [usePort2197]))
      | .raise msg code =>
        handleError cfg attempt (calls ++ [usePort2197]) { message := msg, code := code }
          (fun e => sendLoop cfg options gw fuel (attempt + 1) (!usePort2197) (some e)
            (calls ++ [usePort2197]))
          (fun e => sendLoop cfg options gw fuel (attempt + 1) usePort2197 (some e)
            (calls ++ [usePort2197]))

/-- `sendApnsNotification`: resolve push type and priority, validate payload
size and the background-notification constraints (each a pre-loop throw with
no network call), then run the retry loop starting at the requested port.
The device token and pre-generated auth token do not influence the outcome
in the node-apn variant (the provider signs with `config` itself); they are
kept for signature fidelity. The result pairs the outcome with the list of
ports of the network attempts made. -/
def sendApnsNotification (config : ApnsConfig) (deviceToken : String)
    (payload : ApnsPayload) (authToken : String) (options : ApnsOptions)
    (retryConfig : RetryConfig) (startWithPort2197 : Bool)
    (gw : Nat → Bool → GB) : SendOutcome × List Bool :=
  let pushType := determinePushType payload options.pushType
  let priority := determinePriority pushType payload options.priority
  let maxSize : Nat := if pushType = "voip" then 5120 else 4096
  if payloadByteSize payload > maxSize then
    (.validationError
      ("Payload size exceeds " ++ toString maxSize ++ " bytes limit for " ++
        pushType ++ " notifications"), [])
  else if pushType = "background" ∧ ¬ priority = some 5 then
    (.validationError "Background notifications must use priority 5", [])
  else if pushType = "background" ∧ ¬ payload.aps.contentAvailable = some 1 then
    (.validationError "Background notifications must have content-available set to 1", [])
  else
    sendLoop retryConfig options gw (retryConfig.maxRetries + 1) 0 startWithPort2197 none []

/-! ## The batch sender `sendPushNotifications` -/

/-- The environment bindings read by `sendPushNotifications`. -/
structure Env where
  APNS_KEY_ID : String
  APNS_TEAM_ID : String
  APNS_PRIVATE_KEY_BASE64 : String
  APPLE_BUNDLE_ID : String
  APNS_ENVIRONMENT : String
  APNS_USE_PORT_2197 : Option String := none
deriving DecidableEq, Repr

/-- The `ApnsConfig` a batch builds from its environment (the private key is
base64-decoded from `APNS_PRIVATE_KEY_BASE64`). -/
def mkBatchConfig (env : Env) : ApnsConfig :=
  { keyId := env.APNS_KEY_ID, teamId := env.APNS_TEAM_ID,
    privateKey := bufferFromBase64Utf8 env.APNS_PRIVATE_KEY_BASE64,
    topic := env.APPLE_BUNDLE_ID, environment := env.APNS_ENVIRONMENT }

/-- `env.APNS_USE_PORT_2197 === "true" || env.APNS_USE_PORT_2197 === "1"`. -/
def forcePort2197 (env : Env) : Bool :=
  env.APNS_USE_PORT_2197 = some "true" || env.APNS_USE_PORT_2197 = some "1"

/-- The essential-config check: any falsy field among keyId, teamId,
privateKey, topic fails the batch. -/
def configMissing (config : ApnsConfig) : Bool :=
  !jsTruthy config.keyId || !jsTruthy config.teamId ||
  !jsTruthy config.privateKey || !jsTruthy config.topic

/-- One entry of the batch result's `errors` array. -/
structure BatchError where
  token : String
  error : String
  reason : Option String := none
deriving DecidableEq, Repr

/-- The aggregated batch result of `sendPushNotifications`. -/
structure BatchResult where
  successCount : Nat
  failureCount : Nat
  invalidTokens : List String
  errors : List BatchError
deriving DecidableEq, Repr

/-- A batch result together with the observable external effects: how many
times the credential generator ran and which network attempts were made
(device token, port). -/
structure BatchReturn where
  result : BatchResult
  credentialGens : Nat
  networkCalls : List (String × Bool)
deriving DecidableEq, Repr

/-- The reason list `['BadDeviceToken', 'Unregistered', 'DeviceTokenNotForTopic']`
whose members mark a token as invalid. -/
def permanentlyInvalidReasons : List String :=
  ["BadDeviceToken", "Unregistered", "DeviceTokenNotForTopic"]

/-- The `apnsReason` field carried by a settled rejection, as read by the
aggregation loop's truthiness test (`if (error?.apnsReason)`). -/
def outcomeApnsReason : SendOutcome → Option String
  | .apnsRejected _ r => if r = "" then none else some r
  | _ => none

/-- The `message` of a settled rejection. -/
def outcomeMessage : SendOutcome → String
  | .success => ""
  | .validationError m => m
  | .apnsRejected m _ => m
  | .netExhausted m _ => m

/-- Is the rejection one that marks the token permanently invalid? -/
def isInvalidOutcome (o : SendOutcome) : Bool :=
  match outcomeApnsReason o with
  | some r => permanentlyInvalidReasons.contains r
  | none => false

/-- The `errors` entry pushed for one failed token: with the `apnsReason`
when it is truthy, else with the message defaulted by `|| 'Unknown error'`. -/
def mkBatchError (t : String) (o : SendOutcome) : BatchError :=
  match outcomeApnsReason o with
  | some r => { token := t, error := outcomeMessage o, reason := some r }
  | none => { token := t, error := jsOrS (outcomeMessage o) "Unknown error", reason := none }

/-- One step of the `results.forEach` aggregation loop. -/
def aggregateStep (t : String) (o : SendOutcome) (acc : BatchResult) : BatchResult :=
  match o with
  | .success => { acc with successCount := acc.successCount + 1 }
  | _ =>
    { successCount := acc.successCount,
      failureCount := acc.failureCount + 1,
      invalidTokens := (if isInvalidOutcome o then [t] else []) ++ acc.invalidTokens,
      errors := mkBatchError t o :: acc.errors }

/-- The `results.forEach` aggregation over the settled (token, outcome)
pairs, preserving result order. -/
def aggregate : List (String × SendOutcome) → BatchResult
  | [] => { successCount := 0, failureCount := 0, invalidTokens := [], errors := [] }
  | (t, o) :: rest => aggregateStep t o (aggregate rest)

/-- `sendPushNotifications`: empty token list returns the all-zero result at
once; a missing config fails every token with no credential generation;
otherwise one credential is generated (a throw fails every token with a
`Batch failed:` error), and the per-token sends are issued with the shared
credential and settled independently (`Promise.allSettled`), then aggregated.
`tokenGen` is the credential-generation oracle and `gw t` the gateway oracle
for token `t`. -/
def sendPushNotifications (env : Env) (deviceTokens : List String)
    (payload : ApnsPayload) (options : ApnsOptions) (retryConfig : RetryConfig)
    (tokenGen : ApnsConfig → Except String String)
    (gw : String → Nat → Bool → GB) : BatchReturn :=
  match deviceTokens with
  | [] =>
    { result := { successCount := 0, failureCount := 0, invalidTokens := [], errors := [] },
      credentialGens := 0, networkCalls := [] }
  | _ :: _ =>
    let config := mkBatchConfig env
    let force := forcePort2197 env
    if configMissing config then
      { result :=
          { successCount := 0, failureCount := deviceTokens.length,
            invalidTokens := [],
            errors := deviceTokens.map
              (fun t => { token := t, error := "APNS configuration missing" }) },
        credentialGens := 0, networkCalls := [] }
    else
      match tokenGen config with
      | .error e =>
        { result :=
            { successCount := 0, failureCount := deviceTokens.length,
              invalidTokens := [],
              errors := deviceTokens.map
                (fun t => { token := t, error := "Batch failed: " ++ e }) },
          credentialGens := 1, networkCalls := [] }
      | .ok authToken =>
        { result := aggregate (deviceTokens.map (fun t =>
            (t, (sendApnsNotification config t payload authToken options retryConfig
              force (gw t)).1))),
          credentialGens := 1,
          networkCalls := (deviceTokens.map (fun t =>
            ((sendApnsNotification config t payload authToken options retryConfig
              force (gw t)).2).map (fun p => (t, p)))).flatten }

/-! ## Friend-token resolution (`getFriendDeviceTokens` of `src/routes/smoking.ts`) -/

/-- A row of the `friendships` table. -/
structure Friendship where
  userId1 : Int
  userId2 : Int
  status : String
deriving DecidableEq, Repr

/-- A row of the `deviceTokens` table. -/
structure DeviceTokenRow where
  userId : Int
  platform : String
  token : String
deriving DecidableEq, Repr

/-- The two tables `getFriendDeviceTokens` reads. -/
structure DB where
  friendships : List Friendship
  deviceTokens : List DeviceTokenRow
deriving Repr

/-- The friend-id computation of `getFriendDeviceTokens`: accepted-status
edges touching the user, mapped to the opposite side, with the user's own id
filtered out. -/
def acceptedFriendIds (db : DB) (userId : Int) : List Int :=
  let friends := db.friendships.filter
    (fun f => decide ((f.userId1 = userId ∨ f.userId2 = userId) ∧ f.status = "accepted"))
  (friends.map (fun f => if f.userId1 = userId then f.userId2 else f.userId1)).filter
    (fun id => decide (id ≠ userId))

/-- `getFriendDeviceTokens`: resolve accepted-friend ids, return early when
there are none, else collect those friends' device tokens for the platform. -/
def getFriendDeviceTokens (db : DB) (userId : Int) (platform : String := "ios") :
    List String × List Int :=
  let friendIds := acceptedFriendIds db userId
  if friendIds.isEmpty then ([], [])
  else
    let friendTokens := db.deviceTokens.filter
      (fun r => decide (r.userId ∈ friendIds ∧ r.platform = platform))
    (friendTokens.map (fun r => r.token), friendIds)

/-! ## Concrete test fixtures -/

/-- A small alert payload (session-started shape). -/
def payloadW : ApnsPayload :=
  { aps := { alert := some (.obj (some "T") none (some "B")), sound := some "default" } }

/-- An alert payload whose JSON encoding exceeds 4096 bytes (1040 four-byte
characters). -/
def bigPayloadW : ApnsPayload :=
  { aps := { alert := some (.str (String.mk (List.replicate 1040 (Char.ofNat 128512)))) } }

/-- A background payload (`content-available = 1`). -/
def bgPayloadW : ApnsPayload := { aps := { contentAvailable := some 1 } }

/-- Default options (no explicit type, priority or collapse id). -/
def optionsW : ApnsOptions := {}

/-- Options forcing immediate priority. -/
def optsP10W : ApnsOptions := { priority := some "10" }

/-- A complete delivery configuration. -/
def configW : ApnsConfig :=
  { keyId := "K", teamId := "T", privateKey := "P", topic := "com.x",
    environment := "production" }

/-- A complete environment (`QQ==` decodes to the non-empty key `A`). -/
def envW : Env :=
  { APNS_KEY_ID := "K", APNS_TEAM_ID := "T", APNS_PRIVATE_KEY_BASE64 := "QQ==",
    APPLE_BUNDLE_ID := "com.x", APNS_ENVIRONMENT := "production" }

/-- An environment with a missing key id. -/
def envBadW : Env :=
  { APNS_KEY_ID := "", APNS_TEAM_ID := "T", APNS_PRIVATE_KEY_BASE64 := "QQ==",
    APPLE_BUNDLE_ID := "com.x", APNS_ENVIRONMENT := "production" }

/-- Gateway behaviour: transient network failure on the first attempt, then
acceptance. -/
def gwToggleW : Nat → Bool → GB :=
  fun a _ => if a = 0 then .raise "connect ETIMEDOUT" none else .sent

/-- Gateway behaviour: a structured `Unregistered` rejection. -/
def gwRejectW : Nat → Bool → GB :=
  fun _ _ => .failedWith (some "410") (some "Unregistered")

/-- Per-token gateway behaviour accepting everything. -/
def gwBatchSentW : String → Nat → Bool → GB := fun _ _ _ => .sent

/-- Per-token gateway behaviour: `t2` is rejected, everyone else accepted. -/
def gwC8W : String → Nat → Bool → GB :=
  fun u => if u = "t2" then (fun _ _ => .failedWith (some "410") (some "Unregistered"))
    else (fun _ _ => .sent)

/-- Like `gwC8W` except `t2` instead hits a network failure. -/
def gwC8W2 : String → Nat → Bool → GB :=
  fun u => if u = "t2" then (fun _ _ => .raise "connect ETIMEDOUT" none)
    else (fun _ _ => .sent)

/-- Credential generation that succeeds with a fixed token. -/
def tgOkW : ApnsConfig → Except String String := fun _ => .ok "jwt"

/-- Credential generation that throws. -/
def tgErrW : ApnsConfig → Except String String := fun _ => .error "boom"

/-! ## Helper lemmas -/

theorem jsOrO_ne_empty (o : Option String) (d : String) (hd : d ≠ "") :
    jsOrO o d ≠ "" := by
  cases o with
  | none => simpa [jsOrO] using hd
  | some s =>
    by_cases hs : s = "" <;> simp [jsOrO, hs, hd]

theorem mkRejectError_reason_truthy (st rr : Option String) :
    jsTruthyOpt (mkRejectError st rr).apnsReason = true := by
  simp [mkRejectError, jsTruthyOpt]
  exact jsOrO_ne_empty rr "Unknown" (by decide)

theorem mkRejectError_reason_val (st rr : Option String) :
    jsOrO (mkRejectError st rr).apnsReason "" = jsOrO rr "Unknown" := by
  cases rr with
  | none => simp [mkRejectError, jsOrO]
  | some s => by_cases hs : s = "" <;> simp [mkRejectError, jsOrO, hs]

theorem handleError_calls_length (cfg : RetryConfig) (attempt : Nat) (calls : List Bool)
    (e : JsError) (rT rS : JsError → SendOutcome × List Bool) (n : Nat)
    (hT : ∀ e, ((rT e).2).length ≤ n) (hS : ∀ e, ((rS e).2).length ≤ n)
    (hc : calls.length ≤ n) :
    ((handleError cfg attempt calls e rT rS).2).length ≤ n := by
  unfold handleError
  split_ifs <;> first | exact hc | exact hT e | exact hS e

/-- The retry loop makes at most `fuel` further network attempts. -/
theorem sendLoop_calls_length (cfg : RetryConfig) (options : ApnsOptions)
    (gw : Nat → Bool → GB) :
    ∀ fuel attempt port le calls,
      ((sendLoop cfg options gw fuel attempt port le calls).2).length ≤
        calls.length + fuel := by
  intro fuel
  induction fuel with
  | zero => intro attempt port le calls; simp [sendLoop]
  | succ n ih =>
    intro attempt port le calls
    rw [sendLoop]
    by_cases hcol : collapseTooLong options = true
    · rw [if_pos hcol]
      refine handleError_calls_length _ _ _ _ _ _ _ ?_ ?_ ?_
      · intro e; exact le_trans (ih _ _ _ _) (by omega)
      · intro e; exact le_trans (ih _ _ _ _) (by omega)
      · omega
    · rw [if_neg hcol]
      cases hgw : gw attempt port with
      | sent => simp only [List.length_append, List.length_cons, List.length_nil]; omega
      | neither =>
        exact le_trans (ih _ _ _ _)
          (by simp only [List.length_append, List.length_cons, List.length_nil]; omega)
      | failedWith st rr =>
        refine handleError_calls_length _ _ _ _ _ _ _ ?_ ?_ ?_
        · intro e
          exact le_trans (ih _ _ _ _)
            (by simp only [List.length_append, List.length_cons, List.length_nil]; omega)
        · intro e
          exact le_trans (ih _ _ _ _)
            (by simp only [List.length_append, List.length_cons, List.length_nil]; omega)
        · simp only [List.length_append, List.length_cons, List.length_nil]; omega
      | raise msg code =>
        refine handleError_calls_length _ _ _ _ _ _ _ ?_ ?_ ?_
        · intro e
          exact le_trans (ih _ _ _ _)
            (by simp only [List.length_append, List.length_cons, List.length_nil]; omega)
        · intro e
          exact le_trans (ih _ _ _ _)
            (by simp only [List.length_append, List.length_cons, List.length_nil]; omega)
        · simp only [List.length_append, List.length_cons, List.length_nil]; omega

/-- A payload resolving to `alert` class within the 4096-byte ceiling passes
all pre-loop validation: the send is the retry loop itself. -/
theorem sendApns_validation_pass (config : ApnsConfig) (tok : String)
    (payload : ApnsPayload) (auth : String) (options : ApnsOptions)
    (rcfg : RetryConfig) (p : Bool) (gw : Nat → Bool → GB)
    (hpt : determinePushType payload options.pushType = "alert")
    (hsize : payloadByteSize payload ≤ 4096) :
    sendApnsNotification config tok payload auth options rcfg p gw
      = sendLoop rcfg options gw (rcfg.maxRetries + 1) 0 p none [] := by
  have hns : ¬ payloadByteSize payload > 4096 := by omega
  simp [sendApnsNotification, hpt, hns]

/-- An alert-class payload above the 4096-byte ceiling fails fast with the
size validation error and no network attempt. -/
theorem sendApns_oversize (config : ApnsConfig) (tok : String)
    (payload : ApnsPayload) (auth : String) (options : ApnsOptions)
    (rcfg : RetryConfig) (p : Bool) (gw : Nat → Bool → GB)
    (hpt : determinePushType payload options.pushType = "alert")
    (hbig : payloadByteSize payload > 4096) :
    sendApnsNotification config tok payload auth options rcfg p gw
      = (.validationError "Payload size exceeds 4096 bytes limit for alert notifications",
          []) := by
  simp only [sendApnsNotification, hpt]
  have h45 : (if ("alert" : String) = "voip" then (5120 : Nat) else 4096) = 4096 := rfl
  rw [h45, if_pos hbig]
  rfl

/-- A first-attempt protocol rejection is rethrown at once: the outcome is
the `apnsRejected` error and exactly one network attempt was made. -/
theorem sendApns_rejected_first (config : ApnsConfig) (tok : String)
    (payload : ApnsPayload) (auth : String) (options : ApnsOptions)
    (rcfg : RetryConfig) (p : Bool) (gw : Nat → Bool → GB) (st rr : Option String)
    (hpt : determinePushType payload options.pushType = "alert")
    (hsize : payloadByteSize payload ≤ 4096)
    (hcol : collapseTooLong options = false)
    (hgw : gw 0 p = .failedWith st rr) :
    sendApnsNotification config tok payload auth options rcfg p gw
      = (.apnsRejected ("APNS Error " ++ jsOrO st "Unknown" ++ ": " ++ jsOrO rr "Unknown")
          (jsOrO rr "Unknown"), [p]) := by
  rw [sendApns_validation_pass config tok payload auth options rcfg p gw hpt hsize]
  rw [sendLoop]
  rw [if_neg (by simp [hcol])]
  simp only [hgw]
  unfold handleError
  rw [if_pos (mkRejectError_reason_truthy st rr)]
  rw [mkRejectError_reason_val]
  simp [mkRejectError]

theorem mkBatchError_token (t : String) (o : SendOutcome) :
    (mkBatchError t o).token = t := by
  unfold mkBatchError
  cases outcomeApnsReason o <;> rfl

theorem isInvalidOutcome_success : isInvalidOutcome .success = false := rfl

theorem aggregate_counts (l : List (String × SendOutcome)) :
    (aggregate l).successCount + (aggregate l).failureCount = l.length := by
  induction l with
  | nil => rfl
  | cons pr rest ih =>
    obtain ⟨t, o⟩ := pr
    cases o <;> simp [aggregate, aggregateStep] <;> omega

theorem aggregate_errors_eq (l : List (String × SendOutcome)) :
    (aggregate l).errors =
      (l.filter (fun pr => decide (¬ pr.2 = SendOutcome.success))).map
        (fun pr => mkBatchError pr.1 pr.2) := by
  induction l with
  | nil => rfl
  | cons pr rest ih =>
    obtain ⟨t, o⟩ := pr
    cases o <;> simp [aggregate, aggregateStep, ih]

theorem aggregate_failureCount (l : List (String × SendOutcome)) :
    (aggregate l).failureCount =
      (l.filter (fun pr => decide (¬ pr.2 = SendOutcome.success))).length := by
  induction l with
  | nil => rfl
  | cons pr rest ih =>
    obtain ⟨t, o⟩ := pr
    cases o <;> simp [aggregate, aggregateStep, ih]

theorem aggregate_invalid_eq (l : List (String × SendOutcome)) :
    (aggregate l).invalidTokens =
      (l.filter (fun pr => isInvalidOutcome pr.2)).map Prod.fst := by
  induction l with
  | nil => rfl
  | cons pr rest ih =>
    obtain ⟨t, o⟩ := pr
    by_cases ho : o = SendOutcome.success
    · subst ho; simp [aggregate, aggregateStep, isInvalidOutcome_success, ih]
    · by_cases hi : isInvalidOutcome o = true
      · cases o <;> simp_all [aggregate, aggregateStep]
      · cases o <;> simp_all [aggregate, aggregateStep]

theorem length_filter_mono {α : Type} (p q : α → Bool)
    (h : ∀ a, p a = true → q a = true) (l : List α) :
    (l.filter p).length ≤ (l.filter q).length := by
  induction l with
  | nil => simp
  | cons a rest ih =>
    by_cases hp : p a = true
    · simp only [List.filter, hp, h a hp, List.length_cons]
      omega
    · by_cases hq : q a = true <;>
        simp only [List.filter, hp, hq, List.length_cons] <;>
        omega

theorem flatten_all_nil {α β : Type} (l : List α) (f : α → List β)
    (h : ∀ a ∈ l, f a = []) : (l.map f).flatten = [] := by
  induction l with
  | nil => rfl
  | cons a rest ih =>
    simp only [List.map_cons, List.flatten_cons, h a (by simp)]
    simp only [List.nil_append]
    exact ih (fun b hb => h b (by simp [hb]))

/-- The reduction of `sendPushNotifications` on a non-empty token list once
the config check passes and the credential generator succeeds. -/
theorem sendPush_ok_branch (env : Env) (u : String) (us : List String)
    (payload : ApnsPayload) (options : ApnsOptions) (rcfg : RetryConfig)
    (tokenGen : ApnsConfig → Except String String) (gw : String → Nat → Bool → GB)
    (auth : String)
    (hconf : configMissing (mkBatchConfig env) = false)
    (htok : tokenGen (mkBatchConfig env) = .ok auth) :
    sendPushNotifications env (u :: us) payload options rcfg tokenGen gw =
      { result := aggregate ((u :: us).map (fun t =>
          (t, (sendApnsNotification (mkBatchConfig env) t payload auth options rcfg
            (forcePort2197 env) (gw t)).1))),
        credentialGens := 1,
        networkCalls := ((u :: us).map (fun t =>
          ((sendApnsNotification (mkBatchConfig env) t payload auth options rcfg
            (forcePort2197 env) (gw t)).2).map (fun p => (t, p)))).flatten } := by
  rw [sendPushNotifications]
  rw [if_neg (by simp [hconf])]
  rw [htok]

/-- The reduction of `sendPushNotifications` on a non-empty token list when
the config check fails. -/
theorem sendPush_missing_branch (env : Env) (u : String) (us : List String)
    (payload : ApnsPayload) (options : ApnsOptions) (rcfg : RetryConfig)
    (tokenGen : ApnsConfig → Except String String) (gw : String → Nat → Bool → GB)
    (hconf : configMissing (mkBatchConfig env) = true) :
    sendPushNotifications env (u :: us) payload options rcfg tokenGen gw =
      { result :=
          { successCount := 0, failureCount := (u :: us).length,
            invalidTokens := [],
            errors := (u :: us).map
              (fun t => { token := t, error := "APNS configuration missing" }) },
        credentialGens := 0, networkCalls := [] } := by
  rw [sendPushNotifications]
  rw [if_pos hconf]

/-- The reduction of `sendPushNotifications` on a non-empty token list when
credential generation throws. -/
theorem sendPush_tokenGen_error_branch (env : Env) (u : String) (us : List String)
    (payload : ApnsPayload) (options : ApnsOptions) (rcfg : RetryConfig)
    (tokenGen : ApnsConfig → Except String String) (gw : String → Nat → Bool → GB)
    (e : String)
    (hconf : configMissing (mkBatchConfig env) = false)
    (htok : tokenGen (mkBatchConfig env) = .error e) :
    sendPushNotifications env (u :: us) payload options rcfg tokenGen gw =
      { result :=
          { successCount := 0, failureCount := (u :: us).length,
            invalidTokens := [],
            errors := (u :: us).map
              (fun t => { token := t, error := "Batch failed: " ++ e }) },
        credentialGens := 1, networkCalls := [] } := by
  rw [sendPushNotifications]
  rw [if_neg (by simp [hconf])]
  rw [htok]

theorem mem_aggregate_invalid (l : List (String × SendOutcome)) (t : String) :
    t ∈ (aggregate l).invalidTokens ↔
      ∃ pr, pr ∈ l ∧ pr.1 = t ∧ isInvalidOutcome pr.2 = true := by
  rw [aggregate_invalid_eq]
  constructor
  · intro h
    obtain ⟨pr, hpr, hfst⟩ := List.mem_map.mp h
    exact ⟨pr, (List.mem_filter.mp hpr).1, hfst, (List.mem_filter.mp hpr).2⟩
  · rintro ⟨pr, hmem, hfst, hinv⟩
    exact List.mem_map.mpr ⟨pr, List.mem_filter.mpr ⟨hmem, hinv⟩, hfst⟩

theorem filter_map_pair_ne (u t : String) (hu : ¬ u = t) (l : List Bool) :
    ((l.map (fun p => (u, p))).filter (fun c => decide (c.1 = t))) = [] := by
  induction l with
  | nil => rfl
  | cons p rest ih => simp [List.filter, hu, ih]

theorem filter_map_pair_eq (t : String) (l : List Bool) :
    ((l.map (fun p => (t, p))).filter (fun c => decide (c.1 = t)))
      = l.map (fun p => (t, p)) := by
  induction l with
  | nil => rfl
  | cons p rest ih => simp [List.filter, ih]

theorem networkCalls_filter_nil (f : String → List Bool) (t : String) :
    ∀ us : List String, ¬ t ∈ us →
      (((us.map (fun u => (f u).map (fun p => (u, p)))).flatten).filter
        (fun c => decide (c.1 = t))) = [] := by
  intro us
  induction us with
  | nil => intro _; rfl
  | cons u rest ih =>
    intro h
    have hu : ¬ u = t := fun he => h (by simp [he])
    have hr : ¬ t ∈ rest := fun he => h (by simp [he])
    simp only [List.map_cons, List.flatten_cons, List.filter_append]
    rw [filter_map_pair_ne u t hu, ih hr]
    rfl

/-- With `t` occurring exactly once in the batch, the network calls tagged
`t` are exactly the calls of `t`'s own send. -/
theorem networkCalls_filter_single (f : String → List Bool) (t : String) :
    ∀ tokens : List String, tokens.count t = 1 →
      (((tokens.map (fun u => (f u).map (fun p => (u, p)))).flatten).filter
        (fun c => decide (c.1 = t))) = (f t).map (fun p => (t, p)) := by
  intro tokens
  induction tokens with
  | nil => intro h; simp [List.count_nil] at h
  | cons u rest ih =>
    intro h
    by_cases hu : u = t
    · subst hu
      have hcs : (u :: rest).count u = rest.count u + 1 := List.count_cons_self u rest
      have hcz : rest.count u = 0 := by omega
      have hnm : ¬ u ∈ rest := by
        intro hm
        have := List.count_pos_iff.mpr hm
        omega
      simp only [List.map_cons, List.flatten_cons, List.filter_append]
      rw [filter_map_pair_eq, networkCalls_filter_nil f u rest hnm, List.append_nil]
    · have hcs : (u :: rest).count t = rest.count t :=
        List.count_cons_of_ne (fun he => hu he.symm) rest
      have hcr : rest.count t = 1 := by omega
      simp only [List.map_cons, List.flatten_cons, List.filter_append]
      rw [filter_map_pair_ne u t hu, ih hcr, List.nil_append]

/-- Characterisation of `acceptedFriendIds`: exactly the non-self users that
share an accepted friendship edge with `u`, in either direction. -/
theorem mem_acceptedFriendIds (db : DB) (u v : Int) :
    v ∈ acceptedFriendIds db u ↔
      v ≠ u ∧ ∃ f, f ∈ db.friendships ∧ f.status = "accepted" ∧
        ((f.userId1 = u ∧ f.userId2 = v) ∨ (f.userId2 = u ∧ f.userId1 = v)) := by
  unfold acceptedFriendIds
  simp only [List.mem_filter, List.mem_map, List.mem_filter, decide_eq_true_eq]
  constructor
  · rintro ⟨⟨f, ⟨hf, hor, hacc⟩, hpick⟩, hne⟩
    refine ⟨hne, f, hf, hacc, ?_⟩
    by_cases h1 : f.userId1 = u
    · left
      exact ⟨h1, by simpa [h1] using hpick⟩
    · right
      have h2 : f.userId2 = u := hor.resolve_left h1
      exact ⟨h2, by simpa [h1] using hpick⟩
  · rintro ⟨hne, f, hf, hacc, hdir⟩
    rcases hdir with ⟨h1, h2⟩ | ⟨h2, h1⟩
    · exact ⟨⟨f, ⟨hf, Or.inl h1, hacc⟩, by simp [h1, h2]⟩, hne⟩
    · have hne1 : ¬ f.userId1 = u := by rw [h1]; exact hne
      exact ⟨⟨f, ⟨hf, Or.inr h2, hacc⟩, by rw [if_neg hne1]; exact h1⟩, hne⟩

/-- One loop iteration where the gateway accepts: resolve with success. -/
theorem sendLoop_sent_step (cfg : RetryConfig) (options : ApnsOptions)
    (gw : Nat → Bool → GB) (fuel fuel' attempt : Nat) (port : Bool)
    (le : Option JsError) (calls : List Bool)
    (hf : fuel = fuel' + 1)
    (hcol : collapseTooLong options = false)
    (hgw : gw attempt port = .sent) :
    sendLoop cfg options gw fuel attempt port le calls = (.success, calls ++ [port]) := by
  subst hf
  rw [sendLoop]
  rw [if_neg (by simp [hcol])]
  simp only [hgw]

/-- One loop iteration where the attempt throws a transient network error
with fallback enabled and retries left: toggle the port and re-enter. -/
theorem sendLoop_raise_toggle_step (cfg : RetryConfig) (options : ApnsOptions)
    (gw : Nat → Bool → GB) (fuel fuel' attempt : Nat) (port : Bool)
    (le : Option JsError) (calls : List Bool) (msg : String) (code : Option String)
    (hf : fuel = fuel' + 1)
    (hcol : collapseTooLong options = false)
    (hgw : gw attempt port = .raise msg code)
    (hnet : isNetworkError { message := msg, apnsReason := none, code := code } = true)
    (htog : cfg.tryPort2197OnFailure = true)
    (hlt : attempt < cfg.maxRetries) :
    sendLoop cfg options gw fuel attempt port le calls =
      sendLoop cfg options gw fuel' (attempt + 1) (!port)
        (some { message := msg, apnsReason := none, code := code }) (calls ++ [port]) := by
  subst hf
  rw [sendLoop]
  rw [if_neg (by simp [hcol])]
  simp only [hgw]
  unfold handleError
  rw [if_neg (by simp [jsTruthyOpt])]
  rw [if_pos (by simp [htog, hnet, hlt])]

/-- One loop iteration where the attempt throws with no retries left: give
up and wrap the error. -/
theorem sendLoop_raise_exhaust_step (cfg : RetryConfig) (options : ApnsOptions)
    (gw : Nat → Bool → GB) (fuel fuel' attempt : Nat) (port : Bool)
    (le : Option JsError) (calls : List Bool) (msg : String) (code : Option String)
    (hf : fuel = fuel' + 1)
    (hcol : collapseTooLong options = false)
    (hgw : gw attempt port = .raise msg code)
    (hge : cfg.maxRetries ≤ attempt) :
    sendLoop cfg options gw fuel attempt port le calls =
      (.netExhausted (wrapNetMsg (some { message := msg, apnsReason := none, code := code }))
        (cfg.maxRetries + 1), calls ++ [port]) := by
  subst hf
  rw [sendLoop]
  rw [if_neg (by simp [hcol])]
  simp only [hgw]
  unfold handleError
  rw [if_neg (by simp [jsTruthyOpt])]
  have hd : decide (attempt < cfg.maxRetries) = false := decide_eq_false (by omega)
  rw [if_neg (by simp [hd])]
  rw [if_pos hge]

/-- Claim C1: on a single-endpoint delivery with fallback enabled
(`defaultRetryConfig`: maxRetries = 2, fixed 1000 ms delay, port fallback
on), a transient network failure on the first attempt toggles the port
(443↔2197) and retries; a success on the retried alternate path yields the
success outcome with exactly 2 attempts on two different ports; at most
3 total attempts are ever made; and if every attempt fails with the
transient error, the outcome is the wrapped retries-exhausted network error
(a constructor distinct from a protocol rejection) after exactly 3 attempts. -/
theorem claim_c1_retry_port_fallback (config : ApnsConfig) (tok auth : String)
    (payload : ApnsPayload) (options : ApnsOptions) (gw : Nat → Bool → GB)
    (p : Bool) (msg : String) (code : Option String)
    (hpt : determinePushType payload options.pushType = "alert")
    (hsize : payloadByteSize payload ≤ 4096)
    (hcol : collapseTooLong options = false)
    (hnet : isNetworkError { message := msg, apnsReason := none, code := code } = true) :
    defaultRetryConfig = { maxRetries := 2, retryDelayMs := 1000, tryPort2197OnFailure := true }
    ∧ (!p) ≠ p
    ∧ (gw 0 p = .raise msg code → gw 1 (!p) = .sent →
        sendApnsNotification config tok payload auth options defaultRetryConfig p gw
          = (.success, [p, !p]))
    ∧ (sendApnsNotification config tok payload auth options defaultRetryConfig p gw).2.length ≤ 3
    ∧ ((∀ a q, gw a q = .raise msg code) →
        sendApnsNotification config tok payload auth options defaultRetryConfig p gw
          = (.netExhausted
              (wrapNetMsg (some { message := msg, apnsReason := none, code := code })) 3,
             [p, !p, p])) := by
  refine ⟨rfl, Bool.not_ne_self p, ?_, ?_, ?_⟩
  · intro h0 h1
    rw [sendApns_validation_pass config tok payload auth options defaultRetryConfig p gw hpt hsize]
    rw [show defaultRetryConfig.maxRetries + 1 = 3 from rfl]
    rw [sendLoop_raise_toggle_step defaultRetryConfig options gw 3 2 0 p none [] msg code
      rfl hcol h0 hnet rfl (by decide)]
    rw [sendLoop_sent_step defaultRetryConfig options gw 2 1 (0 + 1) (!p) _ _ rfl hcol
      (by simpa using h1)]
    rfl
  · rw [sendApns_validation_pass config tok payload auth options defaultRetryConfig p gw hpt hsize]
    rw [show defaultRetryConfig.maxRetries + 1 = 3 from rfl]
    simpa using sendLoop_calls_length defaultRetryConfig options gw 3 0 p none []
  · intro h
    rw [sendApns_validation_pass config tok payload auth options defaultRetryConfig p gw hpt hsize]
    rw [show defaultRetryConfig.maxRetries + 1 = 3 from rfl]
    rw [sendLoop_raise_toggle_step defaultRetryConfig options gw 3 2 0 p none [] msg code
      rfl hcol (h 0 p) hnet rfl (by decide)]
    rw [sendLoop_raise_toggle_step defaultRetryConfig options gw 2 1 (0 + 1) (!p) _ _ msg code
      rfl hcol (h (0 + 1) (!p)) hnet rfl (by decide)]
    rw [sendLoop_raise_exhaust_step defaultRetryConfig options gw 1 0 (0 + 1 + 1) (!!p) _ _
      msg code rfl hcol (h (0 + 1 + 1) (!!p)) (by decide)]
    simp [Bool.not_not]
    rfl

theorem isInvalid_imp_not_success (o : SendOutcome) :
    isInvalidOutcome o = true → decide (¬ o = SendOutcome.success) = true := by
  cases o <;> simp [isInvalidOutcome, outcomeApnsReason]

theorem bool_not_true_eq_false {b : Bool} (h : ¬ b = true) : b = false := by
  cases b
  · rfl
  · exact absurd rfl h

/-- Claim C3: a non-empty batch with a complete configuration generates
exactly one gateway credential, whether the generation succeeds (the shared
token case) or throws (the batch-failure case); it is never regenerated per
endpoint. -/
theorem claim_c3_one_credential_per_batch (env : Env) (tokens : List String)
    (payload : ApnsPayload) (options : ApnsOptions) (rcfg : RetryConfig)
    (tokenGen : ApnsConfig → Except String String) (gw : String → Nat → Bool → GB)
    (hne : tokens ≠ [])
    (hconf : configMissing (mkBatchConfig env) = false) :
    (sendPushNotifications env tokens payload options rcfg tokenGen gw).credentialGens = 1 := by
  cases tokens with
  | nil => exact absurd rfl hne
  | cons u us =>
    cases htok : tokenGen (mkBatchConfig env) with
    | error e =>
      rw [sendPush_tokenGen_error_branch env u us payload options rcfg tokenGen gw e hconf htok]
    | ok auth =>
      rw [sendPush_ok_branch env u us payload options rcfg tokenGen gw auth hconf htok]

/-- Claim C4: a dispatch batch with an empty endpoint set returns the
all-zero result with no network calls and no credential generation — the
function returns before reading the configuration or generating a token. -/
theorem claim_c4_empty_batch_all_zero (env : Env) (payload : ApnsPayload)
    (options : ApnsOptions) (rcfg : RetryConfig)
    (tokenGen : ApnsConfig → Except String String) (gw : String → Nat → Bool → GB) :
    sendPushNotifications env [] payload options rcfg tokenGen gw =
      { result := { successCount := 0, failureCount := 0, invalidTokens := [], errors := [] },
        credentialGens := 0, networkCalls := [] } := rfl

/-- Claim C5: when the batch configuration is incomplete, or when credential
construction throws, the whole batch fails fast: zero network calls, zero
successes, every endpoint counted failed with one error entry each, and no
token marked invalid. -/
theorem claim_c5_config_failure_fails_fast (env : Env) (tokens : List String)
    (payload : ApnsPayload) (options : ApnsOptions) (rcfg : RetryConfig)
    (tokenGen : ApnsConfig → Except String String) (gw : String → Nat → Bool → GB)
    (h : configMissing (mkBatchConfig env) = true ∨
      (configMissing (mkBatchConfig env) = false ∧
        ∃ e, tokenGen (mkBatchConfig env) = .error e)) :
    (sendPushNotifications env tokens payload options rcfg tokenGen gw).networkCalls = []
    ∧ (sendPushNotifications env tokens payload options rcfg tokenGen gw).result.successCount = 0
    ∧ (sendPushNotifications env tokens payload options rcfg tokenGen gw).result.failureCount
        = tokens.length
    ∧ (sendPushNotifications env tokens payload options rcfg tokenGen gw).result.errors.length
        = tokens.length
    ∧ (sendPushNotifications env tokens payload options rcfg tokenGen gw).result.invalidTokens
        = [] := by
  cases tokens with
  | nil => exact ⟨rfl, rfl, rfl, rfl, rfl⟩
  | cons u us =>
    rcases h with hconf | ⟨hconf, e, htok⟩
    · rw [sendPush_missing_branch env u us payload options rcfg tokenGen gw hconf]
      refine ⟨rfl, rfl, rfl, ?_, rfl⟩
      simp
    · rw [sendPush_tokenGen_error_branch env u us payload options rcfg tokenGen gw e hconf htok]
      refine ⟨rfl, rfl, rfl, ?_, rfl⟩
      simp

/-- Claim C10: for every input token list and every combination of
per-endpoint outcomes (including the configuration-failure and setup-failure
paths), the batch result satisfies: successCount + failureCount equals the
number of input tokens, every member of invalidTokens is an input token,
invalidTokens are all counted in failureCount, and the errors list has
exactly one entry per failed token. -/
theorem claim_c10_batch_result_invariants (env : Env) (tokens : List String)
    (payload : ApnsPayload) (options : ApnsOptions) (rcfg : RetryConfig)
    (tokenGen : ApnsConfig → Except String String) (gw : String → Nat → Bool → GB) :
    (sendPushNotifications env tokens payload options rcfg tokenGen gw).result.successCount
        + (sendPushNotifications env tokens payload options rcfg tokenGen gw).result.failureCount
        = tokens.length
    ∧ (∀ u ∈ (sendPushNotifications env tokens payload options rcfg tokenGen gw).result.invalidTokens,
        u ∈ tokens)
    ∧ (sendPushNotifications env tokens payload options rcfg tokenGen gw).result.invalidTokens.length
        ≤ (sendPushNotifications env tokens payload options rcfg tokenGen gw).result.failureCount
    ∧ (sendPushNotifications env tokens payload options rcfg tokenGen gw).result.errors.length
        = (sendPushNotifications env tokens payload options rcfg tokenGen gw).result.failureCount := by
  cases tokens with
  | nil => exact ⟨rfl, by intro u hu; exact absurd hu (by simp [sendPushNotifications]), by simp [sendPushNotifications], rfl⟩
  | cons u us =>
    by_cases hconf : configMissing (mkBatchConfig env) = true
    · rw [sendPush_missing_branch env u us payload options rcfg tokenGen gw hconf]
      refine ⟨by simp, by simp, by simp, by simp⟩
    · have hconf' : configMissing (mkBatchConfig env) = false := bool_not_true_eq_false hconf
      cases htok : tokenGen (mkBatchConfig env) with
      | error e =>
        rw [sendPush_tokenGen_error_branch env u us payload options rcfg tokenGen gw e hconf' htok]
        refine ⟨by simp, by simp, by simp, by simp⟩
      | ok auth =>
        rw [sendPush_ok_branch env u us payload options rcfg tokenGen gw auth hconf' htok]
        set l := (u :: us).map (fun t =>
          (t, (sendApnsNotification (mkBatchConfig env) t payload auth options rcfg
            (forcePort2197 env) (gw t)).1)) with hl
        refine ⟨?_, ?_, ?_, ?_⟩
        · have := aggregate_counts l
          simpa [hl] using this
        · intro v hv
          obtain ⟨pr, hpr, hfst, _⟩ := (mem_aggregate_invalid l v).mp hv
          obtain ⟨t0, ht0, hpr'⟩ := List.mem_map.mp hpr
          rw [← hfst, ← hpr']
          exact ht0
        · rw [aggregate_invalid_eq, aggregate_failureCount]
          rw [List.length_map]
          exact length_filter_mono _ _ (fun pr => isInvalid_imp_not_success pr.2) l
        · rw [aggregate_errors_eq, aggregate_failureCount, List.length_map]

/-- Claim C9: recipient resolution returns exactly the device tokens of the
target platform owned by users sharing an accepted-status friendship edge
with the actor, in either direction; users with pending or no relationship,
and the actor themself, contribute no tokens. -/
theorem claim_c9_friend_token_resolution (db : DB) (userId : Int) (platform : String)
    (s : String) :
    s ∈ (getFriendDeviceTokens db userId platform).1 ↔
      ∃ r, r ∈ db.deviceTokens ∧ r.token = s ∧ r.platform = platform ∧
        r.userId ≠ userId ∧
        ∃ f, f ∈ db.friendships ∧ f.status = "accepted" ∧
          ((f.userId1 = userId ∧ f.userId2 = r.userId) ∨
            (f.userId2 = userId ∧ f.userId1 = r.userId)) := by
  unfold getFriendDeviceTokens
  by_cases he : (acceptedFriendIds db userId).isEmpty = true
  · rw [if_pos he]
    constructor
    · intro hs
      exact absurd hs (by simp)
    · rintro ⟨r, hr, htk, hplat, hne, hex⟩
      have hmem : r.userId ∈ acceptedFriendIds db userId :=
        (mem_acceptedFriendIds db userId r.userId).mpr ⟨hne, hex⟩
      rw [List.isEmpty_iff.mp he] at hmem
      exact absurd hmem (by simp)
  · rw [if_neg he]
    constructor
    · intro hs
      obtain ⟨r, hr, htk⟩ := List.mem_map.mp hs
      have hf := List.mem_filter.mp hr
      have hcond := of_decide_eq_true hf.2
      obtain ⟨hne, hex⟩ := (mem_acceptedFriendIds db userId r.userId).mp hcond.1
      exact ⟨r, hf.1, htk, hcond.2, hne, hex⟩
    · rintro ⟨r, hr, htk, hplat, hne, hex⟩
      have hmem : r.userId ∈ acceptedFriendIds db userId :=
        (mem_acceptedFriendIds db userId r.userId).mpr ⟨hne, hex⟩
      exact List.mem_map.mpr ⟨r,
        List.mem_filter.mpr ⟨hr, decide_eq_true ⟨hmem, hplat⟩⟩, htk⟩

/-- Claim C7: a background-class payload (`content-available = 1`, resolved
push type `background`) submitted with explicit priority `"10"` is rejected
before any send with the dedicated validation error and no network attempt;
conversely, a background payload with no explicit priority is assigned
priority 5. -/
theorem claim_c7_background_priority_validation (payload : ApnsPayload)
    (options : ApnsOptions)
    (hca : payload.aps.contentAvailable = some 1)
    (hpt : determinePushType payload options.pushType = "background")
    (hprio : options.priority = some "10")
    (hsize : payloadByteSize payload ≤ 4096) :
    (∀ (config : ApnsConfig) (tok auth : String) (rcfg : RetryConfig) (p : Bool)
      (gw : Nat → Bool → GB),
      sendApnsNotification config tok payload auth options rcfg p gw
        = (.validationError "Background notifications must use priority 5", []))
    ∧ (∀ payload2 : ApnsPayload, determinePriority "background" payload2 none = some 5) := by
  constructor
  · intro config tok auth rcfg p gw
    have hns : ¬ payloadByteSize payload > 4096 := by omega
    have hp10 : determinePriority (determinePushType payload options.pushType) payload
        options.priority = some 10 := by
      rw [hpt, hprio]
      rfl
    simp only [sendApnsNotification, hpt, hprio]
    have h45 : (if ("background" : String) = "voip" then (5120 : Nat) else 4096) = 4096 := rfl
    rw [h45, if_neg hns]
    have hue : determinePriority "background" payload (some "10") = some 10 := rfl
    rw [if_pos (show True ∧ ¬ determinePriority "background" payload (some "10") = some 5
      from ⟨trivial, by simp [hue]⟩)]
  · intro payload2
    rfl

theorem isInvalidOutcome_rejected (m r : String) (hr : r ≠ "") :
    isInvalidOutcome (.apnsRejected m r) = permanentlyInvalidReasons.contains r := by
  simp [isInvalidOutcome, outcomeApnsReason, hr]

theorem mkBatchError_rejected (t m r : String) (hr : r ≠ "") :
    mkBatchError t (.apnsRejected m r) = { token := t, error := m, reason := some r } := by
  simp [mkBatchError, outcomeApnsReason, outcomeMessage, hr]

theorem contains_perm_iff (r : String) :
    permanentlyInvalidReasons.contains r = true ↔ r ∈ permanentlyInvalidReasons := by
  rw [show permanentlyInvalidReasons.contains r = permanentlyInvalidReasons.elem r from rfl]
  exact List.elem_iff

/-- Aggregating a batch in which every send fails with one common outcome. -/
theorem aggregate_const_failure (tokens : List String) (o : SendOutcome)
    (ho : ¬ o = SendOutcome.success) :
    aggregate (tokens.map (fun t => (t, o))) =
      { successCount := 0, failureCount := tokens.length,
        invalidTokens := if isInvalidOutcome o then tokens else [],
        errors := tokens.map (fun t => mkBatchError t o) } := by
  induction tokens with
  | nil =>
    cases hi : isInvalidOutcome o <;> simp [aggregate, hi]
  | cons u us ih =>
    rw [List.map_cons, aggregate, ih]
    cases o with
    | success => exact absurd rfl ho
    | validationError m =>
      cases hi : isInvalidOutcome (SendOutcome.validationError m) <;>
        simp [aggregateStep, hi]
    | apnsRejected m r =>
      cases hi : isInvalidOutcome (SendOutcome.apnsRejected m r) <;>
        simp [aggregateStep, hi]
    | netExhausted m n =>
      cases hi : isInvalidOutcome (SendOutcome.netExhausted m n) <;>
        simp [aggregateStep, hi]

/-- The error entries for tokens other than `t` depend only on the outcomes
of tokens other than `t`. -/
theorem errors_filter_ne_congr (outF outG : String → SendOutcome) (t : String)
    (h : ∀ u, ¬ u = t → outF u = outG u) :
    ∀ tokens : List String,
      ((aggregate (tokens.map (fun u => (u, outF u)))).errors.filter
        (fun e => decide (¬ e.token = t)))
      = ((aggregate (tokens.map (fun u => (u, outG u)))).errors.filter
        (fun e => decide (¬ e.token = t))) := by
  intro tokens
  rw [aggregate_errors_eq, aggregate_errors_eq]
  induction tokens with
  | nil => rfl
  | cons u us ih =>
    by_cases hu : u = t
    · subst hu
      simp only [List.map_cons, List.filter_cons]
      by_cases hsF : outF u = SendOutcome.success <;>
        by_cases hsG : outG u = SendOutcome.success <;>
          simpa [hsF, hsG, List.filter_cons, mkBatchError_token] using ih
    · have he : outF u = outG u := h u hu
      simp only [List.map_cons, List.filter_cons, he]
      by_cases hsG : outG u = SendOutcome.success
      · simpa [hsG] using ih
      · simpa [hsG, List.filter_cons, mkBatchError_token, hu] using ih

/-- The invalid-token entries for tokens other than `t` depend only on the
outcomes of tokens other than `t`. -/
theorem invalid_filter_ne_congr (outF outG : String → SendOutcome) (t : String)
    (h : ∀ u, ¬ u = t → outF u = outG u) :
    ∀ tokens : List String,
      ((aggregate (tokens.map (fun u => (u, outF u)))).invalidTokens.filter
        (fun v => decide (¬ v = t)))
      = ((aggregate (tokens.map (fun u => (u, outG u)))).invalidTokens.filter
        (fun v => decide (¬ v = t))) := by
  intro tokens
  rw [aggregate_invalid_eq, aggregate_invalid_eq]
  induction tokens with
  | nil => rfl
  | cons u us ih =>
    by_cases hu : u = t
    · subst hu
      simp only [List.map_cons, List.filter_cons]
      by_cases hiF : isInvalidOutcome (outF u) = true <;>
        by_cases hiG : isInvalidOutcome (outG u) = true <;>
          simpa [hiF, hiG, List.filter_cons] using ih
    · have he : outF u = outG u := h u hu
      simp only [List.map_cons, List.filter_cons, he]
      by_cases hiG : isInvalidOutcome (outG u) = true
      · simpa [hiG, List.filter_cons, hu] using ih
      · simpa [hiG] using ih

/-- A voip-class payload above the 5120-byte ceiling fails fast with the
voip size validation error and no network attempt. -/
theorem sendApns_oversize_voip (config : ApnsConfig) (tok : String)
    (payload : ApnsPayload) (auth : String) (options : ApnsOptions)
    (rcfg : RetryConfig) (p : Bool) (gw : Nat → Bool → GB)
    (hpt : determinePushType payload options.pushType = "voip")
    (hbig : payloadByteSize payload > 5120) :
    sendApnsNotification config tok payload auth options rcfg p gw
      = (.validationError "Payload size exceeds 5120 bytes limit for voip notifications",
          []) := by
  simp only [sendApnsNotification, hpt]
  have h51 : (if True then (5120 : Nat) else 4096) = 5120 := rfl
  rw [h51, if_pos hbig]
  rfl

/-- Claim C6: an alert-class payload whose JSON encoding exceeds 4096 bytes
(5120 for the voip class) fails fast with the size validation error before
the retry loop — no network call, never retried — and in a batch every such
endpoint is reported as failed with that error and no network calls occur. -/
theorem claim_c6_oversize_payload_fails_fast (payload : ApnsPayload)
    (options : ApnsOptions)
    (hpt : determinePushType payload options.pushType = "alert")
    (hbig : payloadByteSize payload > 4096) :
    (∀ (config : ApnsConfig) (tok auth : String) (rcfg : RetryConfig) (p : Bool)
      (gw : Nat → Bool → GB),
      sendApnsNotification config tok payload auth options rcfg p gw
        = (.validationError "Payload size exceeds 4096 bytes limit for alert notifications",
            []))
    ∧ (∀ (payload2 : ApnsPayload) (options2 : ApnsOptions) (config : ApnsConfig)
        (tok auth : String) (rcfg : RetryConfig) (p : Bool) (gw : Nat → Bool → GB),
        determinePushType payload2 options2.pushType = "voip" →
        payloadByteSize payload2 > 5120 →
        sendApnsNotification config tok payload2 auth options2 rcfg p gw
          = (.validationError "Payload size exceeds 5120 bytes limit for voip notifications",
              []))
    ∧ (∀ (env : Env) (tokens : List String) (rcfg : RetryConfig)
        (tokenGen : ApnsConfig → Except String String) (auth : String)
        (gw : String → Nat → Bool → GB),
        configMissing (mkBatchConfig env) = false →
        tokenGen (mkBatchConfig env) = .ok auth →
        (sendPushNotifications env tokens payload options rcfg tokenGen gw).networkCalls = []
        ∧ (sendPushNotifications env tokens payload options rcfg tokenGen gw).result.successCount
            = 0
        ∧ (sendPushNotifications env tokens payload options rcfg tokenGen gw).result.failureCount
            = tokens.length
        ∧ (sendPushNotifications env tokens payload options rcfg tokenGen gw).result.errors
            = tokens.map (fun t =>
                { token := t,
                  error := "Payload size exceeds 4096 bytes limit for alert notifications",
                  reason := none })) := by
  refine ⟨?_, ?_, ?_⟩
  · intro config tok auth rcfg p gw
    exact sendApns_oversize config tok payload auth options rcfg p gw hpt hbig
  · intro payload2 options2 config tok auth rcfg p gw hpt2 hbig2
    exact sendApns_oversize_voip config tok payload2 auth options2 rcfg p gw hpt2 hbig2
  · intro env tokens rcfg tokenGen auth gw hconf htok
    cases tokens with
    | nil => exact ⟨rfl, rfl, rfl, rfl⟩
    | cons u us =>
      rw [sendPush_ok_branch env u us payload options rcfg tokenGen gw auth hconf htok]
      have hout : ∀ t : String,
          sendApnsNotification (mkBatchConfig env) t payload auth options rcfg
            (forcePort2197 env) (gw t)
          = (.validationError "Payload size exceeds 4096 bytes limit for alert notifications",
              []) :=
        fun t => sendApns_oversize (mkBatchConfig env) t payload auth options rcfg
          (forcePort2197 env) (gw t) hpt hbig
      refine ⟨?_, ?_, ?_, ?_⟩
      · apply flatten_all_nil
        intro t ht
        rw [hout t]
        rfl
      · rw [show ((u :: us).map (fun t =>
            (t, (sendApnsNotification (mkBatchConfig env) t payload auth options rcfg
              (forcePort2197 env) (gw t)).1)))
            = (u :: us).map (fun t => (t, SendOutcome.validationError
                "Payload size exceeds 4096 bytes limit for alert notifications"))
          from List.map_congr_left (fun t _ => by rw [hout t])]
        rw [aggregate_const_failure _ _ (by simp)]
      · rw [show ((u :: us).map (fun t =>
            (t, (sendApnsNotification (mkBatchConfig env) t payload auth options rcfg
              (forcePort2197 env) (gw t)).1)))
            = (u :: us).map (fun t => (t, SendOutcome.validationError
                "Payload size exceeds 4096 bytes limit for alert notifications"))
          from List.map_congr_left (fun t _ => by rw [hout t])]
        rw [aggregate_const_failure _ _ (by simp)]
      · rw [show ((u :: us).map (fun t =>
            (t, (sendApnsNotification (mkBatchConfig env) t payload auth options rcfg
              (forcePort2197 env) (gw t)).1)))
            = (u :: us).map (fun t => (t, SendOutcome.validationError
                "Payload size exceeds 4096 bytes limit for alert notifications"))
          from List.map_congr_left (fun t _ => by rw [hout t])]
        rw [aggregate_const_failure _ _ (by simp)]
        rfl

/-- Claim C2: a structured protocol rejection (an error carrying an
`apnsReason`) is never retried — the send resolves after exactly one network
attempt with the `apnsRejected` error — and in a batch such an endpoint is
classified: its token is in `invalidTokens` exactly when the reason is one
of BadDeviceToken / Unregistered / DeviceTokenNotForTopic, it always gets a
failure entry carrying the reason, and (occurring once in the batch) it
causes exactly one network call. -/
theorem claim_c2_protocol_rejection_not_retried (payload : ApnsPayload)
    (options : ApnsOptions) (st rr : Option String)
    (hpt : determinePushType payload options.pushType = "alert")
    (hsize : payloadByteSize payload ≤ 4096)
    (hcol : collapseTooLong options = false) :
    (∀ (config : ApnsConfig) (tok auth : String) (rcfg : RetryConfig) (p : Bool)
      (gw : Nat → Bool → GB), gw 0 p = .failedWith st rr →
      sendApnsNotification config tok payload auth options rcfg p gw
        = (.apnsRejected
            ("APNS Error " ++ jsOrO st "Unknown" ++ ": " ++ jsOrO rr "Unknown")
            (jsOrO rr "Unknown"), [p]))
    ∧ (∀ (env : Env) (tokens : List String) (rcfg : RetryConfig)
        (tokenGen : ApnsConfig → Except String String) (auth : String)
        (gw : String → Nat → Bool → GB) (t : String),
        configMissing (mkBatchConfig env) = false →
        tokenGen (mkBatchConfig env) = .ok auth →
        t ∈ tokens →
        gw t 0 (forcePort2197 env) = .failedWith st rr →
        ((t ∈ (sendPushNotifications env tokens payload options rcfg tokenGen gw).result.invalidTokens
            ↔ jsOrO rr "Unknown" ∈ permanentlyInvalidReasons)
        ∧ (∃ e ∈ (sendPushNotifications env tokens payload options rcfg tokenGen gw).result.errors,
            e.token = t ∧ e.reason = some (jsOrO rr "Unknown"))
        ∧ (tokens.count t = 1 →
            ((sendPushNotifications env tokens payload options rcfg tokenGen gw).networkCalls.filter
              (fun c => decide (c.1 = t))) = [(t, forcePort2197 env)]))) := by
  have hrne : jsOrO rr "Unknown" ≠ "" := jsOrO_ne_empty rr "Unknown" (by decide)
  constructor
  · intro config tok auth rcfg p gw hgw
    exact sendApns_rejected_first config tok payload auth options rcfg p gw st rr
      hpt hsize hcol hgw
  · intro env tokens rcfg tokenGen auth gw t hconf htok hmem hgw
    cases tokens with
    | nil => cases hmem
    | cons u us =>
      rw [sendPush_ok_branch env u us payload options rcfg tokenGen gw auth hconf htok]
      have houtt : sendApnsNotification (mkBatchConfig env) t payload auth options rcfg
          (forcePort2197 env) (gw t)
          = (.apnsRejected
              ("APNS Error " ++ jsOrO st "Unknown" ++ ": " ++ jsOrO rr "Unknown")
              (jsOrO rr "Unknown"), [forcePort2197 env]) :=
        sendApns_rejected_first (mkBatchConfig env) t payload auth options rcfg
          (forcePort2197 env) (gw t) st rr hpt hsize hcol hgw
      refine ⟨?_, ?_, ?_⟩
      · rw [mem_aggregate_invalid]
        constructor
        · rintro ⟨pr, hpr, hfst, hinv⟩
          obtain ⟨t0, ht0, hpr'⟩ := List.mem_map.mp hpr
          have ht0t : t0 = t := by rw [← hpr'] at hfst; exact hfst
          subst ht0t
          rw [← hpr'] at hinv
          simp only at hinv
          rw [houtt] at hinv
          simp only at hinv
          rw [isInvalidOutcome_rejected _ _ hrne] at hinv
          exact (contains_perm_iff _).mp hinv
        · intro hr
          refine ⟨(t, (sendApnsNotification (mkBatchConfig env) t payload auth options rcfg
            (forcePort2197 env) (gw t)).1), List.mem_map.mpr ⟨t, hmem, rfl⟩, rfl, ?_⟩
          rw [houtt]
          simp only
          rw [isInvalidOutcome_rejected _ _ hrne]
          exact (contains_perm_iff _).mpr hr
      · rw [aggregate_errors_eq]
        refine ⟨mkBatchError t (.apnsRejected
          ("APNS Error " ++ jsOrO st "Unknown" ++ ": " ++ jsOrO rr "Unknown")
          (jsOrO rr "Unknown")), ?_, ?_, ?_⟩
        · apply List.mem_map.mpr
          refine ⟨(t, (sendApnsNotification (mkBatchConfig env) t payload auth options rcfg
            (forcePort2197 env) (gw t)).1), ?_, ?_⟩
          · apply List.mem_filter.mpr
            refine ⟨List.mem_map.mpr ⟨t, hmem, rfl⟩, ?_⟩
            simp only
            rw [houtt]
            simp
          · simp only
            rw [houtt]
        · rw [mkBatchError_rejected _ _ _ hrne]
        · rw [mkBatchError_rejected _ _ _ hrne]
      · intro hcount
        rw [networkCalls_filter_single
          (fun u' => (sendApnsNotification (mkBatchConfig env) u' payload auth options rcfg
            (forcePort2197 env) (gw u')).2) t (u :: us) hcount]
        rw [houtt]
        rfl

/-- Claim C8: once a batch reaches the concurrent-send phase, per-endpoint
failures are isolated and surface only as data: changing the gateway
behaviour of one endpoint `t` never changes the error entries or
invalid-token entries of the other endpoints, every batch returns aggregate
counts accounting for all tokens (never an exception), and every endpoint
whose send does not succeed gets an error entry in the result. -/
theorem claim_c8_failures_isolated_as_data (env : Env) (payload : ApnsPayload)
    (options : ApnsOptions) (rcfg : RetryConfig)
    (tokenGen : ApnsConfig → Except String String) (auth : String)
    (tokens : List String) (t : String) (gw gw' : String → Nat → Bool → GB)
    (hconf : configMissing (mkBatchConfig env) = false)
    (htok : tokenGen (mkBatchConfig env) = .ok auth)
    (hagree : ∀ u, ¬ u = t → gw u = gw' u) :
    ((sendPushNotifications env tokens payload options rcfg tokenGen gw).result.errors.filter
        (fun e => decide (¬ e.token = t))
      = (sendPushNotifications env tokens payload options rcfg tokenGen gw').result.errors.filter
        (fun e => decide (¬ e.token = t)))
    ∧ ((sendPushNotifications env tokens payload options rcfg tokenGen gw).result.invalidTokens.filter
        (fun v => decide (¬ v = t))
      = (sendPushNotifications env tokens payload options rcfg tokenGen gw').result.invalidTokens.filter
        (fun v => decide (¬ v = t)))
    ∧ ((sendPushNotifications env tokens payload options rcfg tokenGen gw).result.successCount
        + (sendPushNotifications env tokens payload options rcfg tokenGen gw).result.failureCount
        = tokens.length)
    ∧ (∀ u, u ∈ tokens →
        ¬ (sendApnsNotification (mkBatchConfig env) u payload auth options rcfg
            (forcePort2197 env) (gw u)).1 = SendOutcome.success →
        ∃ e ∈ (sendPushNotifications env tokens payload options rcfg tokenGen gw).result.errors,
          e.token = u) := by
  have hout : ∀ u, ¬ u = t →
      (sendApnsNotification (mkBatchConfig env) u payload auth options rcfg
        (forcePort2197 env) (gw u)).1
      = (sendApnsNotification (mkBatchConfig env) u payload auth options rcfg
        (forcePort2197 env) (gw' u)).1 := by
    intro u hu
    rw [hagree u hu]
  cases tokens with
  | nil => exact ⟨rfl, rfl, rfl, fun u hu => absurd hu (by simp)⟩
  | cons w ws =>
    rw [sendPush_ok_branch env w ws payload options rcfg tokenGen gw auth hconf htok,
      sendPush_ok_branch env w ws payload options rcfg tokenGen gw' auth hconf htok]
    refine ⟨?_, ?_, ?_, ?_⟩
    · exact errors_filter_ne_congr _ _ t hout (w :: ws)
    · exact invalid_filter_ne_congr _ _ t hout (w :: ws)
    · rw [aggregate_counts]
      rw [List.length_map]
    · intro u hu hfail
      rw [aggregate_errors_eq]
      refine ⟨mkBatchError u (sendApnsNotification (mkBatchConfig env) u payload auth options
        rcfg (forcePort2197 env) (gw u)).1, ?_, mkBatchError_token _ _⟩
      apply List.mem_map.mpr
      refine ⟨(u, (sendApnsNotification (mkBatchConfig env) u payload auth options rcfg
        (forcePort2197 env) (gw u)).1), ?_, rfl⟩
      apply List.mem_filter.mpr
      exact ⟨List.mem_map.mpr ⟨u, hu, rfl⟩, by simpa using hfail⟩

/-- Witness for C1: the concrete toggle scenario — transient failure on
port 443, success on the retried port 2197, exactly two attempts. -/
theorem claim_c1_witness :
    sendApnsNotification configW "tok" payloadW "auth" optionsW defaultRetryConfig
      false gwToggleW = (.success, [false, true]) :=
  (claim_c1_retry_port_fallback configW "tok" "auth" payloadW optionsW gwToggleW
    false "connect ETIMEDOUT" none (by decide) (by decide) (by decide) (by decide)).2.2.1
    rfl rfl

/-- Witness for C2: a concrete `Unregistered` rejection resolves in one
attempt with the classified error. -/
theorem claim_c2_witness :
    sendApnsNotification configW "tok" payloadW "auth" optionsW defaultRetryConfig
      false gwRejectW
      = (.apnsRejected "APNS Error 410: Unregistered" "Unregistered", [false]) :=
  (claim_c2_protocol_rejection_not_retried payloadW optionsW (some "410")
    (some "Unregistered") (by decide) (by decide) (by decide)).1
    configW "tok" "auth" defaultRetryConfig false gwRejectW rfl

/-- Witness for C3: a concrete one-token batch generates one credential. -/
theorem claim_c3_witness :
    (sendPushNotifications envW ["t1"] payloadW optionsW defaultRetryConfig tgOkW
      gwBatchSentW).credentialGens = 1 :=
  claim_c3_one_credential_per_batch envW ["t1"] payloadW optionsW defaultRetryConfig
    tgOkW gwBatchSentW (by decide) (by decide)

/-- Witness for C5: a concrete batch with a missing key id fails fast. -/
theorem claim_c5_witness :
    (sendPushNotifications envBadW ["t1", "t2"] payloadW optionsW defaultRetryConfig
      tgOkW gwBatchSentW).networkCalls = []
    ∧ (sendPushNotifications envBadW ["t1", "t2"] payloadW optionsW defaultRetryConfig
      tgOkW gwBatchSentW).result.successCount = 0
    ∧ (sendPushNotifications envBadW ["t1", "t2"] payloadW optionsW defaultRetryConfig
      tgOkW gwBatchSentW).result.failureCount = ["t1", "t2"].length
    ∧ (sendPushNotifications envBadW ["t1", "t2"] payloadW optionsW defaultRetryConfig
      tgOkW gwBatchSentW).result.errors.length = ["t1", "t2"].length
    ∧ (sendPushNotifications envBadW ["t1", "t2"] payloadW optionsW defaultRetryConfig
      tgOkW gwBatchSentW).result.invalidTokens = [] :=
  claim_c5_config_failure_fails_fast envBadW ["t1", "t2"] payloadW optionsW
    defaultRetryConfig tgOkW gwBatchSentW (Or.inl (by decide))

set_option maxRecDepth 100000 in
/-- Witness for C6: a concrete oversized alert payload fails fast with the
size validation error and no network attempt. -/
theorem claim_c6_witness :
    sendApnsNotification configW "tok" bigPayloadW "auth" optionsW defaultRetryConfig
      false gwToggleW
      = (.validationError "Payload size exceeds 4096 bytes limit for alert notifications",
          []) :=
  (claim_c6_oversize_payload_fails_fast bigPayloadW optionsW (by decide) (by decide)).1
    configW "tok" "auth" defaultRetryConfig false gwToggleW

/-- Witness for C7: a concrete background payload with priority "10" is
rejected pre-send. -/
theorem claim_c7_witness :
    sendApnsNotification configW "tok" bgPayloadW "auth" optsP10W defaultRetryConfig
      false gwToggleW
      = (.validationError "Background notifications must use priority 5", []) :=
  (claim_c7_background_priority_validation bgPayloadW optsP10W (by decide) (by decide)
    rfl (by decide)).1 configW "tok" "auth" defaultRetryConfig false gwToggleW

/-- Witness for C8: two concrete batches differing only in `t2`'s gateway
behaviour agree on everything about `t1`, and a failing endpoint surfaces as
an error entry. -/
theorem claim_c8_witness :
    ((sendPushNotifications envW ["t1", "t2"] payloadW optionsW defaultRetryConfig
        tgOkW gwC8W).result.errors.filter (fun e => decide (¬ e.token = "t2"))
      = (sendPushNotifications envW ["t1", "t2"] payloadW optionsW defaultRetryConfig
        tgOkW gwC8W2).result.errors.filter (fun e => decide (¬ e.token = "t2")))
    ∧ ((sendPushNotifications envW ["t1", "t2"] payloadW optionsW defaultRetryConfig
        tgOkW gwC8W).result.invalidTokens.filter (fun v => decide (¬ v = "t2"))
      = (sendPushNotifications envW ["t1", "t2"] payloadW optionsW defaultRetryConfig
        tgOkW gwC8W2).result.invalidTokens.filter (fun v => decide (¬ v = "t2")))
    ∧ ((sendPushNotifications envW ["t1", "t2"] payloadW optionsW defaultRetryConfig
        tgOkW gwC8W).result.successCount
      + (sendPushNotifications envW ["t1", "t2"] payloadW optionsW defaultRetryConfig
        tgOkW gwC8W).result.failureCount = ["t1", "t2"].length)
    ∧ (∀ u, u ∈ ["t1", "t2"] →
        ¬ (sendApnsNotification (mkBatchConfig envW) u payloadW "jwt" optionsW
            defaultRetryConfig (forcePort2197 envW) (gwC8W u)).1 = SendOutcome.success →
        ∃ e ∈ (sendPushNotifications envW ["t1", "t2"] payloadW optionsW
          defaultRetryConfig tgOkW gwC8W).result.errors, e.token = u) :=
  claim_c8_failures_isolated_as_data envW payloadW optionsW defaultRetryConfig tgOkW
    "jwt" ["t1", "t2"] "t2" gwC8W gwC8W2 (by decide) rfl
    (by intro u hu; simp [gwC8W, gwC8W2, hu])
